import Mathlib

/-!
Verification of the diagram layout-and-validation pipeline found in the
presentation-diagram generators (`powerpoint-diagrams/examples/`).

The Python sources are shallowly embedded: dictionaries become structures,
Python `//` (floor division) becomes `Int` division `/` (which is Euclidean,
hence floor division whenever the divisor is positive — every division in the
embedded code has divisor 2), raising becomes `Except.error`, and warning
strings become structured warning values carrying exactly the data the Python
format strings interpolate.
-/

/-! ## Definition model and definition validator (flowchart.py, org_chart.py) -/

/-- A shape record of the definition model.  Python shapes are dicts; absent
`text` / `preset` keys are read with `s.get(key, "")`, so both are total
`String` fields here with `""` standing for an absent key. -/
structure ShapeSpec where
  id : String
  text : String
  preset : String
  style : String
deriving DecidableEq

/-- A connection record of the definition model (`src`/`tgt` shape ids and an
optional label, `""` when absent). -/
structure ConnectionSpec where
  src : String
  tgt : String
  label : String
deriving DecidableEq

/-- Structured rendering of the warning strings appended by
`validate_definition`. -/
inductive DefWarn where
  | selfLoop (id : String)
  | emptyText (id : String)
  | unknownPreset (preset : String) (id : String)
deriving DecidableEq

/-- Structured rendering of the `ValueError`s raised by `validate_definition`:
the duplicate-id error carries the offending set (Python `set(dupes)`), the
missing-endpoint errors carry the unresolved id. -/
inductive DefError where
  | duplicateIds (ids : List String)
  | srcNotFound (src : String)
  | tgtNotFound (tgt : String)
deriving DecidableEq

/-- The `VALID_PRESETS` set of flowchart.py (identical in org_chart.py). -/
def VALID_PRESETS : List String :=
  ["flowChartProcess", "flowChartDecision", "flowChartTerminator",
   "flowChartMagneticDisk", "roundRect", "rect", "ellipse",
   "hexagon", "cloud", "flowChartDocument", "flowChartPreparation",
   "flowChartInputOutput", "flowChartAlternateProcess",
   "flowChartConnector", "flowChartPredefinedProcess"]

/-- Python `not s.strip()`: true iff the string is empty or whitespace-only. -/
def pyIsBlank (s : String) : Bool :=
  s.toList.all Char.isWhitespace

/-- The per-connection loop of `validate_definition`: raises on the first
connection whose `src` or `tgt` does not resolve, otherwise collects one
self-loop warning per connection with `src == tgt`, in definition order. -/
def checkConnections (idSet : List String) :
    List ConnectionSpec → Except DefError (List DefWarn)
  | [] => Except.ok []
  | c :: rest =>
    if c.src ∈ idSet then
      if c.tgt ∈ idSet then
        match checkConnections idSet rest with
        | Except.error e => Except.error e
        | Except.ok ws =>
            Except.ok ((if c.src = c.tgt then [DefWarn.selfLoop c.src] else []) ++ ws)
      else Except.error (DefError.tgtNotFound c.tgt)
    else Except.error (DefError.srcNotFound c.src)

/-- The per-shape warning collection of `validate_definition`: an empty-text
warning for blank text, an unknown-preset warning for a nonempty preset
outside `VALID_PRESETS` (Python: `if preset and preset not in VALID_PRESETS`). -/
def shapeWarns (s : ShapeSpec) : List DefWarn :=
  (if pyIsBlank s.text then [DefWarn.emptyText s.id] else []) ++
  (if s.preset ≠ "" ∧ s.preset ∉ VALID_PRESETS then
    [DefWarn.unknownPreset s.preset s.id] else [])

/-- QC1 of flowchart.py: `validate_definition(shapes, connections)`.
Raises on duplicate shape ids (reporting the set of ids occurring more than
once) and on a connection endpoint absent from the id set; otherwise returns
the collected warnings (connection warnings first, then shape warnings, as in
the source). -/
def shapeIds (shapes : List ShapeSpec) : List String :=
  shapes.map ShapeSpec.id

def validate_definition (shapes : List ShapeSpec) (connections : List ConnectionSpec) :
    Except DefError (List DefWarn) :=
  let ids := shapeIds shapes
  if ids.dedup.length ≠ ids.length then
    Except.error (DefError.duplicateIds ((ids.filter (fun x => 1 < ids.count x)).dedup))
  else
    match checkConnections ids connections with
    | Except.error e => Except.error e
    | Except.ok connWs => Except.ok (connWs ++ shapes.flatMap shapeWarns)

/-- Recognizer for self-loop warnings. -/
def isSelfLoopW : DefWarn → Bool
  | DefWarn.selfLoop _ => true
  | _ => false

/-- Recognizer for empty-text warnings. -/
def isEmptyTextW : DefWarn → Bool
  | DefWarn.emptyText _ => true
  | _ => false

/-- Recognizer for unknown-preset warnings. -/
def isUnknownPresetW : DefWarn → Bool
  | DefWarn.unknownPreset _ _ => true
  | _ => false

/-- The warnings produced by a fully-resolvable connection list. -/
def selfLoopWarns (conns : List ConnectionSpec) : List DefWarn :=
  conns.filterMap (fun c => if c.src = c.tgt then some (DefWarn.selfLoop c.src) else none)

/-! ## Geometry and layout engine (flowchart.py) -/

/-- Axis-aligned rectangle: top-left corner and extent, in EMU length-units. -/
structure Rect where
  x : Int
  y : Int
  cx : Int
  cy : Int
deriving DecidableEq, Inhabited

def SLIDE_W : Int := 9144000

def SLIDE_H : Int := 5143500

/-- Average Calibri character width at 100 pt, in EMU. -/
def CALIBRI_AVG_CHAR_W : Int := 45000

def PT_EMU : Int := 12700

def GAP : Int := 228600

def base_cy : Int := 685800

def base_y : Int := (SLIDE_H - base_cy) / 2

/-- `connection_point(rect, idx)` of flowchart.py: anchor coordinates for
anchor index 0 = top, 1 = right, 2 = bottom, 3 = left.  The Python function
falls through (returns `None`) for any other index, which makes the caller
crash; that is rendered as `none`. -/
def connection_point (rect : Rect) (idx : Int) : Option (Int × Int) :=
  if idx = 0 then some (rect.x + rect.cx / 2, rect.y)
  else if idx = 1 then some (rect.x + rect.cx, rect.y + rect.cy / 2)
  else if idx = 2 then some (rect.x + rect.cx / 2, rect.y + rect.cy)
  else if idx = 3 then some (rect.x, rect.y + rect.cy / 2)
  else none

/-- The two direction strings accepted by `compute_connector_bbox`; any other
string raises, so the embedding closes the enumeration. -/
inductive ConnDirection where
  | right_to_left
  | top_to_bottom
deriving DecidableEq

/-- Result tuple of `compute_connector_bbox`. -/
structure BBoxResult where
  rect : Rect
  flip_h : Bool
  flip_v : Bool
  src_idx : Int
  tgt_idx : Int
deriving DecidableEq

/-- `compute_connector_bbox(src_rect, tgt_rect, direction)` of flowchart.py:
anchor points on the facing edges, flips from the sign of the anchor delta,
and the bounding box with each extent clamped to at least 1. -/
def compute_connector_bbox (src_rect tgt_rect : Rect) (direction : ConnDirection) :
    BBoxResult :=
  match direction with
  | ConnDirection.right_to_left =>
    let sp_x := src_rect.x + src_rect.cx
    let sp_y := src_rect.y + src_rect.cy / 2
    let tp_x := tgt_rect.x
    let tp_y := tgt_rect.y + tgt_rect.cy / 2
    ⟨⟨min sp_x tp_x, min sp_y tp_y, max |tp_x - sp_x| 1, max |tp_y - sp_y| 1⟩,
      decide (tp_x < sp_x), decide (tp_y < sp_y), 1, 3⟩
  | ConnDirection.top_to_bottom =>
    let sp_x := src_rect.x + src_rect.cx / 2
    let sp_y := src_rect.y + src_rect.cy
    let tp_x := tgt_rect.x + tgt_rect.cx / 2
    let tp_y := tgt_rect.y
    ⟨⟨min sp_x tp_x, min sp_y tp_y, max |tp_x - sp_x| 1, max |tp_y - sp_y| 1⟩,
      decide (tp_x < sp_x), decide (tp_y < sp_y), 2, 0⟩

/-- Fit test at candidate size `sz` (hundredths of a point) for a text of
`textLen` characters in a usable interior of `usableW × usableH` EMU.
Python computes `text_w = len(text) * (45000 * (sz/100) / 100)` and
`line_h = (sz/100) * 12700 * 1.2` in floats; both are exact rationals
`4.5 * len * sz` and `152.4 * sz`, so the comparisons are rendered exactly by
cross-multiplying: `len * 45000 * sz ≤ 10000 * usableW` and
`sz * 12700 * 6 ≤ 500 * usableH`. -/
def fontFits (textLen sz usableW usableH : Int) : Bool :=
  decide (textLen * CALIBRI_AVG_CHAR_W * sz ≤ 10000 * usableW) &&
  decide (sz * PT_EMU * 6 ≤ 500 * usableH)

/-- The candidate sizes of `range(max_size, min_size - 1, -100)`:
`max_size, max_size - 100, ...` down to the last value `≥ min_size`. -/
def fontCandidates (min_size max_size : Int) : List Int :=
  (List.range ((max_size - min_size + 100) / 100).toNat).map
    (fun (k : ℕ) => max_size - 100 * (k : Int))

/-- `estimate_font_size(text, cx, cy, min_size, max_size)` of flowchart.py:
empty text short-circuits to `max_size`; otherwise the first (hence largest)
candidate size that fits the usable interior (box minus fixed padding), and
`min_size` when none fits. -/
def estimate_font_size (text : String) (cx cy : Int)
    (min_size : Int := 800) (max_size : Int := 1400) : Int :=
  if text = "" then max_size
  else
    let usable_w := cx - 182880
    let usable_h := cy - 91440
    match (fontCandidates min_size max_size).find?
        (fun sz => fontFits (text.length : Int) sz usable_w usable_h) with
    | some sz => sz
    | none => min_size

/-- `text_fits(text, cx, font_size)` of flowchart.py (same float-exact
cross-multiplied comparison as `fontFits`). -/
def text_fits (text : String) (cx font_size : Int) : Bool :=
  if text = "" then true
  else decide ((text.length : Int) * CALIBRI_AVG_CHAR_W * font_size ≤ 10000 * (cx - 182880))

structure PlacedShape where
  shape_id : Int
  key : String
  text : String
  preset : String
  rect : Rect
  fill_hex : String
  border_hex : String
  text_color : String
  font_size : Int
  bold : Bool
  shadow : Bool
  z_layer : Int
deriving DecidableEq, Inhabited

structure PlacedConnector where
  conn_id : Int
  src_shape_id : Int
  src_idx : Int
  tgt_shape_id : Int
  tgt_idx : Int
  rect : Rect
  flip_h : Bool
  flip_v : Bool
  color_hex : String
  line_w : Int
  connector_type : String
  head_type : String
  tail_type : String
  round_join : Bool
  z_layer : Int
deriving DecidableEq, Inhabited

structure PlacedLabel where
  label_id : Int
  text : String
  rect : Rect
  color_hex : String
  font_size : Int
  bold : Bool
  z_layer : Int
deriving DecidableEq, Inhabited

/-- The tuple returned by `compute_layout()` of flowchart.py. -/
structure Layout where
  bg_id : Int
  title_id : Int
  title_rect : Rect
  shapes : List PlacedShape
  connectors : List PlacedConnector
  labels : List PlacedLabel
deriving DecidableEq, Inhabited

/-- The module-level `SHAPES` table of flowchart.py. -/
def SHAPES : List ShapeSpec :=
  [⟨"start", "START", "flowChartTerminator", "dark"⟩,
   ⟨"plan", "PLAN", "flowChartProcess", "primary"⟩,
   ⟨"review", "REVIEW?", "flowChartDecision", "accent"⟩,
   ⟨"execute", "EXECUTE", "flowChartProcess", "primary"⟩,
   ⟨"done", "DONE", "flowChartTerminator", "dark"⟩]

/-- The module-level `CONNECTIONS` table of flowchart.py (absent label = ""). -/
def CONNECTIONS : List ConnectionSpec :=
  [⟨"start", "plan", ""⟩,
   ⟨"plan", "review", ""⟩,
   ⟨"review", "execute", "YES"⟩,
   ⟨"execute", "done", ""⟩]

/-- The (fill, border) pairs of the `PALETTE` table of flowchart.py. -/
def stylePalette (style : String) : Option (String × String) :=
  if style = "dark" then some ("1F3864", "16294A")
  else if style = "primary" then some ("4472C4", "2E4FA3")
  else if style = "accent" then some ("ED7D31", "C05C13")
  else none

/-- The `DIMS` preset-to-extent table local to `compute_layout`. -/
def DIMS (preset : String) : Option (Int × Int) :=
  if preset = "flowChartProcess" then some (1371600, 685800)
  else if preset = "flowChartDecision" then some (1371600, 914400)
  else if preset = "flowChartTerminator" then some (1371600, 571500)
  else none

/-- Python dict lookup `shape_map[key]` (dict built by insertion: on a
duplicate key the last insertion wins, hence the reversed search). -/
def lookupShapeByKey (shapes : List PlacedShape) (k : String) : Option PlacedShape :=
  shapes.reverse.find? (fun ps => ps.key == k)

/-- Python dict lookup `shape_by_id[sid]` of `validate`. -/
def lookupShapeById (shapes : List PlacedShape) (sid : Int) : Option PlacedShape :=
  shapes.reverse.find? (fun ps => ps.shape_id == sid)

/-- The shape-placement loop of `compute_layout`, with the id counter
threaded explicitly (`nid()` returns the counter then increments it). -/
def placeShapes (cnt : Int) : List (ShapeSpec × Int) → Option (List PlacedShape × Int)
  | [] => some ([], cnt)
  | (s, x) :: rest =>
    match DIMS s.preset, stylePalette s.style with
    | some (cx, cy), some (fill, border) =>
      let ps : PlacedShape :=
        ⟨cnt, s.id, s.text, s.preset, ⟨x, base_y + (base_cy - cy) / 2, cx, cy⟩,
          fill, border, "FFFFFF", estimate_font_size s.text cx cy 800 1400,
          true, true, 3⟩
      match placeShapes (cnt + 1) rest with
      | some (rest2, c2) => some (ps :: rest2, c2)
      | none => none
    | _, _ => none

/-- The connector-placement loop of `compute_layout`. -/
def placeConnectors (shapes : List PlacedShape) (cnt : Int) :
    List ConnectionSpec → Option (List PlacedConnector × Int)
  | [] => some ([], cnt)
  | conn :: rest =>
    match lookupShapeByKey shapes conn.src, lookupShapeByKey shapes conn.tgt with
    | some src, some tgt =>
      let res := compute_connector_bbox src.rect tgt.rect ConnDirection.right_to_left
      let pc : PlacedConnector :=
        ⟨cnt, src.shape_id, res.src_idx, tgt.shape_id, res.tgt_idx, res.rect,
          res.flip_h, res.flip_v, "4472C4", 25400, "bentConnector3",
          "none", "triangle", true, 2⟩
      match placeConnectors shapes (cnt + 1) rest with
      | some (pcs, c2) => some (pc :: pcs, c2)
      | none => none
    | _, _ => none

/-- The label-placement loop of `compute_layout` (one label per connection
with a truthy `label`). -/
def placeLabels (shapes : List PlacedShape) (cnt : Int) :
    List ConnectionSpec → Option (List PlacedLabel × Int)
  | [] => some ([], cnt)
  | conn :: rest =>
    if conn.label ≠ "" then
      match lookupShapeByKey shapes conn.src with
      | some src =>
        let pl : PlacedLabel :=
          ⟨cnt, conn.label,
            ⟨src.rect.x + src.rect.cx + GAP / 4, base_y + base_cy / 2 - 342900,
              228600, 228600⟩,
            "27AE60", 1000, true, 4⟩
        match placeLabels shapes (cnt + 1) rest with
        | some (pls, c2) => some (pl :: pls, c2)
        | none => none
      | none => none
    else placeLabels shapes cnt rest

/-- `compute_layout()` of flowchart.py.  The id counter starts at 2; the
title takes 2, the background 3, then shapes, connectors and labels are
numbered in definition order.  `none` renders a Python `KeyError` on a
failed table lookup (never hit on the module's own data). -/
def compute_layout : Option Layout :=
  let title_id : Int := 2
  let bg_id : Int := 3
  let n : Int := (SHAPES.length : Int)
  let sw : Int := 1371600
  let total_w := n * sw + (n - 1) * GAP
  let left := (SLIDE_W - total_w) / 2
  let xs := (List.range SHAPES.length).map (fun (i : ℕ) => left + (i : Int) * (sw + GAP))
  match placeShapes 4 (SHAPES.zip xs) with
  | none => none
  | some (pss, c1) =>
    match placeConnectors pss c1 CONNECTIONS with
    | none => none
    | some (pcs, c2) =>
      match placeLabels pss c2 CONNECTIONS with
      | none => none
      | some (pls, _) =>
        some ⟨bg_id, title_id, ⟨457200, 228600, 8229600, 457200⟩, pss, pcs, pls⟩

/-- The concrete layout computed by `compute_layout` (it succeeds on the
module's own data; see `compute_layout` theorems). -/
def flowLayout : Layout :=
  compute_layout.getD default

/-- All primitive ids of a layout, in allocation order (title, background,
shapes, connectors, labels). -/
def layoutPrimIds (L : Layout) : List Int :=
  [L.title_id, L.bg_id] ++ L.shapes.map PlacedShape.shape_id ++
    L.connectors.map PlacedConnector.conn_id ++ L.labels.map PlacedLabel.label_id

/-! ## Layout validator (flowchart.py `validate`) -/

/-- Structured rendering of the warning strings appended by `validate`. -/
inductive LWarn where
  | textOverflow (text : String) (key : String)
  | fontTooSmall (key : String) (sz : Int)
  | zeroFont (key : String)
  | overlap (k1 k2 : String)
  | outOfBounds (key : String)
  | degenerate (id : Int)
  | bboxMisaligned (id : Int)
  | flipHMismatch (id : Int) (got expected : Bool)
  | flipVMismatch (id : Int) (got expected : Bool)
deriving DecidableEq

/-- Structured rendering of the `ValueError`s raised by `validate`. -/
inductive LayoutError where
  | badSource (connId srcId : Int)
  | badTarget (connId tgtId : Int)
  | dupIds
deriving DecidableEq

/-- `rects_overlap(a, b)` of flowchart.py. -/
def rects_overlap (a b : Rect) : Bool :=
  !(decide (a.x + a.cx ≤ b.x) || decide (b.x + b.cx ≤ a.x) ||
    decide (a.y + a.cy ≤ b.y) || decide (b.y + b.cy ≤ a.y))

/-- The per-shape warning checks of `validate` (text overflow, small font,
zero font on non-blank text), in source order. -/
def shapeQualityWarns (ps : PlacedShape) : List LWarn :=
  (if text_fits ps.text ps.rect.cx ps.font_size = false then
    [LWarn.textOverflow ps.text ps.key] else []) ++
  (if ps.font_size < 800 then [LWarn.fontTooSmall ps.key ps.font_size] else []) ++
  (if pyIsBlank ps.text = false ∧ ps.font_size = 0 then [LWarn.zeroFont ps.key] else [])

/-- The pairwise overlap loop of `validate` (`for i, a … for b in shapes[i+1:]`). -/
def pairOverlapWarns : List PlacedShape → List LWarn
  | [] => []
  | a :: rest =>
    (rest.filter (fun b => rects_overlap a.rect b.rect)).map
      (fun b => LWarn.overlap a.key b.key) ++ pairOverlapWarns rest

/-- The canvas-bounds loop of `validate`. -/
def boundsWarns (shapes : List PlacedShape) : List LWarn :=
  shapes.filterMap (fun ps =>
    if ps.rect.x < 0 ∨ ps.rect.y < 0 ∨ SLIDE_W < ps.rect.x + ps.rect.cx ∨
        SLIDE_H < ps.rect.y + ps.rect.cy then
      some (LWarn.outOfBounds ps.key) else none)

/-- The degenerate-connector loop of `validate`. -/
def degenWarns (conns : List PlacedConnector) : List LWarn :=
  conns.filterMap (fun pc =>
    if pc.rect.cx ≤ 0 ∨ pc.rect.cy ≤ 0 then
      some (LWarn.degenerate pc.conn_id) else none)

/-- The endpoint-alignment and flip-consistency checks of `validate` for one
connector.  The fallback branches correspond to Python crashes (`KeyError` /
`TypeError`) that are unreachable after the membership check and for valid
anchor indices. -/
def connWarnsOne (shapes : List PlacedShape) (pc : PlacedConnector) : List LWarn :=
  match lookupShapeById shapes pc.src_shape_id, lookupShapeById shapes pc.tgt_shape_id with
  | some src_shape, some tgt_shape =>
    match connection_point src_shape.rect pc.src_idx,
        connection_point tgt_shape.rect pc.tgt_idx with
    | some sp, some tp =>
      let exp_x := min sp.1 tp.1
      let exp_y := min sp.2 tp.2
      let exp_cx := max |tp.1 - sp.1| 1
      let exp_cy := max |tp.2 - sp.2| 1
      (if 1 < |pc.rect.x - exp_x| ∨ 1 < |pc.rect.y - exp_y| ∨
          1 < |pc.rect.cx - exp_cx| ∨ 1 < |pc.rect.cy - exp_cy| then
        [LWarn.bboxMisaligned pc.conn_id] else []) ++
      (if pc.flip_h ≠ decide (tp.1 < sp.1) then
        [LWarn.flipHMismatch pc.conn_id pc.flip_h (decide (tp.1 < sp.1))] else []) ++
      (if pc.flip_v ≠ decide (tp.2 < sp.2) then
        [LWarn.flipVMismatch pc.conn_id pc.flip_v (decide (tp.2 < sp.2))] else [])
    | _, _ => []
  | _, _ => []

/-- The connector loop of `validate`: raises on the first dangling
source/target reference, otherwise collects the per-connector geometry
warnings in order. -/
def connCheck (shapes : List PlacedShape) :
    List PlacedConnector → Except LayoutError (List LWarn)
  | [] => Except.ok []
  | pc :: rest =>
    if shapes.any (fun ps => ps.shape_id == pc.src_shape_id) then
      if shapes.any (fun ps => ps.shape_id == pc.tgt_shape_id) then
        match connCheck shapes rest with
        | Except.error e => Except.error e
        | Except.ok ws => Except.ok (connWarnsOne shapes pc ++ ws)
      else Except.error (LayoutError.badTarget pc.conn_id pc.tgt_shape_id)
    else Except.error (LayoutError.badSource pc.conn_id pc.src_shape_id)

/-- `all_ids` of `validate`: shape ids, then connector ids, then label ids. -/
def allLayoutIds (shapes : List PlacedShape) (conns : List PlacedConnector)
    (labels : List PlacedLabel) : List Int :=
  shapes.map PlacedShape.shape_id ++ conns.map PlacedConnector.conn_id ++
    labels.map PlacedLabel.label_id

/-- QC2 of flowchart.py: `validate(placed_shapes, placed_connectors,
placed_labels)`.  Quality defects append warnings; a dangling connector
reference raises during the connector loop; the duplicate-id check raises
last. -/
def validate (placed_shapes : List PlacedShape) (placed_connectors : List PlacedConnector)
    (placed_labels : List PlacedLabel) : Except LayoutError (List LWarn) :=
  let ws := placed_shapes.flatMap shapeQualityWarns ++ pairOverlapWarns placed_shapes ++
    boundsWarns placed_shapes ++ degenWarns placed_connectors
  match connCheck placed_shapes placed_connectors with
  | Except.error e => Except.error e
  | Except.ok cWs =>
    let all_ids := allLayoutIds placed_shapes placed_connectors placed_labels
    if all_ids.dedup.length ≠ all_ids.length then Except.error LayoutError.dupIds
    else Except.ok (ws ++ cWs)

/-- A valid anchor index (the data model fixes anchor indices to 0..3; on any
other index the Python `validate` crashes with a `TypeError` instead). -/
def validAnchorIdx (idx : Int) : Prop :=
  idx = 0 ∨ idx = 1 ∨ idx = 2 ∨ idx = 3

/-- Re-derivation check used to state the bounding-box/flip invariant: the
connector's stored rect is within ±1 EMU of the minimal bounding box of the
two anchor points re-derived from the referenced shapes, and the flips equal
the strict anchor-delta signs. -/
def connGeomOK (shapes : List PlacedShape) (pc : PlacedConnector) : Bool :=
  match lookupShapeById shapes pc.src_shape_id, lookupShapeById shapes pc.tgt_shape_id with
  | some src_shape, some tgt_shape =>
    match connection_point src_shape.rect pc.src_idx,
        connection_point tgt_shape.rect pc.tgt_idx with
    | some sp, some tp =>
      decide (|pc.rect.x - min sp.1 tp.1| ≤ 1) &&
      decide (|pc.rect.y - min sp.2 tp.2| ≤ 1) &&
      decide (abs (pc.rect.cx - |tp.1 - sp.1|) ≤ 1) &&
      decide (abs (pc.rect.cy - |tp.2 - sp.2|) ≤ 1) &&
      (pc.flip_h == decide (tp.1 < sp.1)) &&
      (pc.flip_v == decide (tp.2 < sp.2))
    | _, _ => false
  | _, _ => false

/-! ## Orthogonal connector router (architecture_diagram.py,
m365_genai_architecture.py: `build_routed_connector_xml`) -/

/-- Segment directions classified by `direction(a, b)`. -/
inductive RouteDir where
  | R
  | L
  | D
  | U
deriving DecidableEq

/-- `direction(a, b)`: sign of the coordinate delta (`R` for dx>0, `L` for
dx<0, `D` for dy>0, else `U` — including the degenerate zero-delta case). -/
def direction (a b : Int × Int) : RouteDir :=
  if 0 < b.1 - a.1 then RouteDir.R
  else if b.1 - a.1 < 0 then RouteDir.L
  else if 0 < b.2 - a.2 then RouteDir.D
  else RouteDir.U

/-- Manhattan length of an axis-aligned segment (`abs dx + abs dy` as in the
source; equal to the geometric length for purely horizontal/vertical
segments). -/
def segLen (a b : Int × Int) : Int :=
  |b.1 - a.1| + |b.2 - a.2|

/-- The 8-entry `ARC` table: (startAngle, sweepAngle) in 60000ths of a degree
for each of the eight valid 90-degree turns; `none` for every other pair
(Python raises `KeyError`). -/
def ARC : RouteDir → RouteDir → Option (Int × Int)
  | RouteDir.R, RouteDir.D => some (16200000, 5400000)
  | RouteDir.R, RouteDir.U => some (5400000, -5400000)
  | RouteDir.L, RouteDir.D => some (16200000, -5400000)
  | RouteDir.L, RouteDir.U => some (5400000, 5400000)
  | RouteDir.D, RouteDir.R => some (10800000, -5400000)
  | RouteDir.D, RouteDir.L => some (0, 5400000)
  | RouteDir.U, RouteDir.R => some (10800000, 5400000)
  | RouteDir.U, RouteDir.L => some (0, -5400000)
  | _, _ => none

/-- The eight direction pairs present in the `ARC` table. -/
def validTurns : List (RouteDir × RouteDir) :=
  [(RouteDir.R, RouteDir.D), (RouteDir.R, RouteDir.U),
   (RouteDir.L, RouteDir.D), (RouteDir.L, RouteDir.U),
   (RouteDir.D, RouteDir.R), (RouteDir.D, RouteDir.L),
   (RouteDir.U, RouteDir.R), (RouteDir.U, RouteDir.L)]

deriving instance DecidableEq for Except

/-- Path commands emitted into the custom-geometry `pathLst`. -/
inductive PathCmd where
  | moveTo (x y : Int)
  | lnTo (x y : Int)
  | arcTo (wR hR stAng swAng : Int)
deriving DecidableEq

/-- Errors aborting `build_routed_connector_xml`: a `KeyError` on the `ARC`
table (carrying the direction pair, exactly the data in the Python
exception), or a `ValueError` from `min()`/`max()` on empty waypoints. -/
inductive RouteError where
  | missingArc (d1 d2 : RouteDir)
  | emptyWaypoints
deriving DecidableEq

/-- Backing-off point before a corner: the interior waypoint moved back by
`r` along the incoming direction. -/
def bendPoint (p : Int × Int) (d : RouteDir) (r : Int) : Int × Int :=
  match d with
  | RouteDir.R => (p.1 - r, p.2)
  | RouteDir.L => (p.1 + r, p.2)
  | RouteDir.D => (p.1, p.2 - r)
  | RouteDir.U => (p.1, p.2 + r)

/-- The per-waypoint loop of `build_routed_connector_xml` (from index 1 on):
an interior waypoint emits a line to the backed-off point and an arc with the
clamped radius `min(radius, seg_before // 2, seg_after // 2)`; the final
waypoint emits a straight line. -/
def emitSegs (radius : Int) : (Int × Int) → List (Int × Int) → Except RouteError (List PathCmd)
  | _, [] => Except.ok []
  | _, [p] => Except.ok [PathCmd.lnTo p.1 p.2]
  | prev, cur :: next :: rest =>
    let s1 := segLen prev cur
    let s2 := segLen cur next
    let r := min radius (min (s1 / 2) (s2 / 2))
    match ARC (direction prev cur) (direction cur next) with
    | none => Except.error (RouteError.missingArc (direction prev cur) (direction cur next))
    | some (st, sw) =>
      match emitSegs radius cur (next :: rest) with
      | Except.error e => Except.error e
      | Except.ok tail =>
        Except.ok (PathCmd.lnTo (bendPoint cur (direction prev cur) r).1
            (bendPoint cur (direction prev cur) r).2 ::
          PathCmd.arcTo r r st sw :: tail)

/-- Full command list for a translated waypoint list: `moveTo` the first
point then the segment loop. -/
def buildPathCmds (radius : Int) (pts : List (Int × Int)) :
    Except RouteError (List PathCmd) :=
  match pts with
  | [] => Except.error RouteError.emptyWaypoints
  | p0 :: rest =>
    match emitSegs radius p0 rest with
    | Except.error e => Except.error e
    | Except.ok cmds => Except.ok (PathCmd.moveTo p0.1 p0.2 :: cmds)

/-- Waypoints translated so the bounding box's top-left corner is the origin
(`pts = [(x - min_x, y - min_y) …]`). -/
def translateWaypoints (wps : List (Int × Int)) : List (Int × Int) :=
  match (wps.map Prod.fst).min?, (wps.map Prod.snd).min? with
  | some mx, some my => wps.map (fun p => (p.1 - mx, p.2 - my))
  | _, _ => []

/-- The routed path of a waypoint list: translation to the bounding box's
top-left corner followed by the path-command loop. -/
def buildRoutedConnector (wps : List (Int × Int)) (radius : Int) :
    Except RouteError (List PathCmd) :=
  buildPathCmds radius (translateWaypoints wps)

/-- The geometric content of the shape built by `build_routed_connector_xml`:
its id and name, the bounding-box offset and (clamped) extent, and the path
commands. -/
structure RoutedShapeXml where
  sid : Int
  name : String
  offset : Int × Int
  ext : Int × Int
  cmds : List PathCmd
deriving DecidableEq

/-- `build_routed_connector_xml(waypoints, sid, name, …, radius)`: bounding
box of the waypoints (extents clamped to ≥ 1), waypoints translated to the
box, then the path-command loop; any `ARC` miss aborts with the `KeyError`
payload (the direction pair). -/
def build_routed_connector_xml (waypoints : List (Int × Int)) (sid : Int)
    (name : String) (radius : Int) : Except RouteError RoutedShapeXml :=
  match (waypoints.map Prod.fst).min?, (waypoints.map Prod.snd).min?,
      (waypoints.map Prod.fst).max?, (waypoints.map Prod.snd).max? with
  | some mnx, some mny, some mxx, some mxy =>
    match buildPathCmds radius (waypoints.map (fun p => (p.1 - mnx, p.2 - mny))) with
    | Except.error e => Except.error e
    | Except.ok cmds =>
      Except.ok ⟨sid, name, (mnx, mny), (max (mxx - mnx) 1, max (mxy - mny) 1), cmds⟩
  | _, _, _, _ => Except.error RouteError.emptyWaypoints

/-- Consecutive segment lengths of a waypoint list. -/
def segLens (pts : List (Int × Int)) : List Int :=
  List.zipWith segLen pts pts.tail

/-- Consecutive segment directions of a waypoint list. -/
def turnDirs (pts : List (Int × Int)) : List RouteDir :=
  List.zipWith direction pts pts.tail

/-- The (incoming, outgoing) direction pair at each interior waypoint. -/
def turnPairs (pts : List (Int × Int)) : List (RouteDir × RouteDir) :=
  List.zipWith Prod.mk (turnDirs pts) (turnDirs pts).tail

/-- True when some interior waypoint's direction pair is outside the `ARC`
table (a U-turn or a straight-through/degenerate pair). -/
def hasBadTurn (pts : List (Int × Int)) : Bool :=
  (turnPairs pts).any (fun p => (ARC p.1 p.2).isNone)

/-- The radii of the emitted `arcTo` commands, in order. -/
def arcRadii (cmds : List PathCmd) : List Int :=
  cmds.filterMap (fun c =>
    match c with
    | PathCmd.arcTo wr _ _ _ => some wr
    | _ => none)

/-- The clamped corner radius at each interior waypoint:
`min(radius, seg_before // 2, seg_after // 2)`. -/
def clampedRadii (radius : Int) (pts : List (Int × Int)) : List Int :=
  List.zipWith (fun a b => min radius (min (a / 2) (b / 2)))
    (segLens pts) (segLens pts).tail

/-! ## Row centering (architecture_diagram.py, org_chart.py `center_row`) -/

/-- `center_row(n, sw, gap)`: the row of `n` item x-positions centered as a
block on the slide width. -/
def center_row (n sw gap : Int) : List Int :=
  (List.range n.toNat).map
    (fun (i : ℕ) => (SLIDE_W - (n * sw + (n - 1) * gap)) / 2 + (i : Int) * (sw + gap))

/-! ## Radial hub-and-spoke placement (hub_spoke_diagram.py) -/

/-- The spoke keys of hub_spoke_diagram.py (6 spokes). -/
def SPOKES : List String :=
  ["auth", "users", "orders", "catalog", "notify", "monitor"]

def HUB_RADIUS : Int := 1828800

def HUB_CENTER_X : Int := SLIDE_W / 2

def HUB_TITLE_H : Int := 457200

/-- `CENTER_Y = (_TOP_CLEARANCE + _BOT_CLEARANCE) // 2` of hub_spoke_diagram.py. -/
def HUB_CENTER_Y : Int := ((HUB_TITLE_H + 228600) + (SLIDE_H - 114300)) / 2

/-- Python `int()` on a real value: truncation toward zero. -/
noncomputable def pyInt (x : ℝ) : ℤ :=
  if 0 ≤ x then ⌊x⌋ else -⌊-x⌋

/-- Spoke angle in degrees: `-90 + i * (360 / n)`. -/
noncomputable def spokeAngleDeg (n i : ℕ) : ℝ :=
  -90 + (i : ℝ) * (360 / (n : ℝ))

/-- Spoke angle in radians (`math.radians`). -/
noncomputable def spokeAngle (n i : ℕ) : ℝ :=
  spokeAngleDeg n i * Real.pi / 180

/-- Spoke center placement of hub_spoke_diagram.py:
`int(CENTER + RADIUS * cos/sin(angle))` (the float trigonometry is idealized
as real arithmetic). -/
noncomputable def spokeCenter (i : ℕ) : ℤ × ℤ :=
  (pyInt ((HUB_CENTER_X : ℝ) + (HUB_RADIUS : ℝ) * Real.cos (spokeAngle SPOKES.length i)),
   pyInt ((HUB_CENTER_Y : ℝ) + (HUB_RADIUS : ℝ) * Real.sin (spokeAngle SPOKES.length i)))

/-- Squared distance of spoke `i`'s center from the hub center. -/
noncomputable def spokeDistSq (i : ℕ) : ℤ :=
  ((spokeCenter i).1 - HUB_CENTER_X) ^ 2 + ((spokeCenter i).2 - HUB_CENTER_Y) ^ 2

/-- Distance-within-±1 property for spoke `i`, in squared form
(`HUB_RADIUS - 1 ≤ dist ≤ HUB_RADIUS + 1`). -/
noncomputable def spokeWithinOne (i : ℕ) : Prop :=
  (HUB_RADIUS - 1) ^ 2 ≤ spokeDistSq i ∧ spokeDistSq i ≤ (HUB_RADIUS + 1) ^ 2

theorem dedup_length_eq_iff {α : Type} [DecidableEq α] (l : List α) :
    l.dedup.length = l.length ↔ l.Nodup := by
  constructor
  · intro h
    have hsub : l.dedup.Sublist l := List.dedup_sublist l
    have : l.dedup = l := hsub.eq_of_length h
    simpa [this] using (List.nodup_dedup l)
  · intro h
    rw [List.dedup_eq_self.mpr h]

theorem selfLoopWarns_cons (c : ConnectionSpec) (rest : List ConnectionSpec) :
    selfLoopWarns (c :: rest) =
      (if c.src = c.tgt then [DefWarn.selfLoop c.src] else []) ++ selfLoopWarns rest := by
  by_cases hloop : c.src = c.tgt <;> simp [selfLoopWarns, hloop]

theorem checkConnections_ok (idSet : List String) (conns : List ConnectionSpec)
    (h : ∀ c ∈ conns, c.src ∈ idSet ∧ c.tgt ∈ idSet) :
    checkConnections idSet conns = Except.ok (selfLoopWarns conns) := by
  induction conns with
  | nil => rfl
  | cons c rest ih =>
    have hc := h c (List.mem_cons_self c rest)
    have hrest : ∀ x ∈ rest, x.src ∈ idSet ∧ x.tgt ∈ idSet :=
      fun x hx => h x (List.mem_cons_of_mem c hx)
    rw [checkConnections, if_pos hc.1, if_pos hc.2, ih hrest, selfLoopWarns_cons]

theorem checkConnections_error (idSet : List String) (conns : List ConnectionSpec)
    (h : ∃ c ∈ conns, c.src ∉ idSet ∨ c.tgt ∉ idSet) :
    ∃ m, m ∉ idSet ∧ (∃ c ∈ conns, c.src = m ∨ c.tgt = m) ∧
      (checkConnections idSet conns = Except.error (DefError.srcNotFound m) ∨
       checkConnections idSet conns = Except.error (DefError.tgtNotFound m)) := by
  induction conns with
  | nil => obtain ⟨c, hc, _⟩ := h; exact absurd hc (List.not_mem_nil c)
  | cons c rest ih =>
    by_cases hsrc : c.src ∈ idSet
    · by_cases htgt : c.tgt ∈ idSet
      · have hbad : ∃ x ∈ rest, x.src ∉ idSet ∨ x.tgt ∉ idSet := by
          obtain ⟨x, hx, hxbad⟩ := h
          rcases List.mem_cons.mp hx with hxc | hxr
          · subst hxc; rcases hxbad with h1 | h1 <;> exact absurd (by assumption) h1
          · exact ⟨x, hxr, hxbad⟩
        obtain ⟨m, hm, ⟨x, hx, hxm⟩, hres⟩ := ih hbad
        refine ⟨m, hm, ⟨x, List.mem_cons_of_mem c hx, hxm⟩, ?_⟩
        rw [checkConnections, if_pos hsrc, if_pos htgt]
        rcases hres with hres | hres <;> rw [hres]
        · exact Or.inl rfl
        · exact Or.inr rfl
      · refine ⟨c.tgt, htgt, ⟨c, List.mem_cons_self c rest, Or.inr rfl⟩, Or.inr ?_⟩
        rw [checkConnections, if_pos hsrc, if_neg htgt]
    · refine ⟨c.src, hsrc, ⟨c, List.mem_cons_self c rest, Or.inl rfl⟩, Or.inl ?_⟩
      rw [checkConnections, if_neg hsrc]

theorem countP_selfLoopWarns (conns : List ConnectionSpec) :
    (selfLoopWarns conns).countP isSelfLoopW =
      conns.countP (fun c => decide (c.src = c.tgt)) := by
  induction conns with
  | nil => rfl
  | cons c rest ih =>
    rw [selfLoopWarns_cons, List.countP_append, ih, List.countP_cons]
    by_cases hloop : c.src = c.tgt <;> simp [hloop, isSelfLoopW, Nat.add_comm]

theorem countP_selfLoopWarns_other (conns : List ConnectionSpec) (p : DefWarn → Bool)
    (hp : ∀ i, p (DefWarn.selfLoop i) = false) :
    (selfLoopWarns conns).countP p = 0 := by
  induction conns with
  | nil => rfl
  | cons c rest ih =>
    rw [selfLoopWarns_cons, List.countP_append, ih]
    by_cases hloop : c.src = c.tgt <;> simp [hloop, hp]

theorem countP_shapeWarns (shapes : List ShapeSpec) :
    ((shapes.flatMap shapeWarns).countP isSelfLoopW = 0) ∧
    ((shapes.flatMap shapeWarns).countP isEmptyTextW =
      shapes.countP (fun s => pyIsBlank s.text)) ∧
    ((shapes.flatMap shapeWarns).countP isUnknownPresetW =
      shapes.countP (fun s => decide (s.preset ≠ "" ∧ s.preset ∉ VALID_PRESETS))) := by
  induction shapes with
  | nil => exact ⟨rfl, rfl, rfl⟩
  | cons s rest ih =>
    obtain ⟨ih1, ih2, ih3⟩ := ih
    by_cases hb : pyIsBlank s.text <;>
      by_cases hk : s.preset ≠ "" ∧ s.preset ∉ VALID_PRESETS <;>
      simp [List.flatMap_cons, List.countP_append, shapeWarns, hb, hk,
        List.countP_cons, isSelfLoopW, isEmptyTextW, isUnknownPresetW,
        ih1, ih2, ih3]

/-- C1: `validate_definition(shapes, connections)` raises exactly on fatal
structural defects — on duplicate shape ids it raises an error reporting the
offending set (the ids occurring at least twice), on an unresolvable
connection endpoint it raises an error referencing the missing id — and for
every input with unique shape ids and resolvable endpoints it returns (does
not raise) a warning list with one entry per self-loop connection, one per
blank (empty/whitespace-only) shape text, and one per specified preset kind
outside the recognized enumeration. -/
theorem validate_definition_spec (shapes : List ShapeSpec)
    (connections : List ConnectionSpec) :
    (¬ (shapeIds shapes).Nodup →
      ∃ ds, validate_definition shapes connections =
          Except.error (DefError.duplicateIds ds) ∧ ds ≠ [] ∧
        ∀ x, x ∈ ds ↔ 2 ≤ (shapeIds shapes).count x) ∧
    ((shapeIds shapes).Nodup →
      (∃ c ∈ connections, c.src ∉ shapeIds shapes ∨ c.tgt ∉ shapeIds shapes) →
      ∃ m, m ∉ shapeIds shapes ∧
        (∃ c ∈ connections, c.src = m ∨ c.tgt = m) ∧
        (validate_definition shapes connections = Except.error (DefError.srcNotFound m) ∨
         validate_definition shapes connections = Except.error (DefError.tgtNotFound m))) ∧
    ((shapeIds shapes).Nodup →
      (∀ c ∈ connections, c.src ∈ shapeIds shapes ∧ c.tgt ∈ shapeIds shapes) →
      ∃ ws, validate_definition shapes connections = Except.ok ws ∧
        ws.countP isSelfLoopW = connections.countP (fun c => decide (c.src = c.tgt)) ∧
        ws.countP isEmptyTextW = shapes.countP (fun s => pyIsBlank s.text) ∧
        ws.countP isUnknownPresetW =
          shapes.countP (fun s => decide (s.preset ≠ "" ∧ s.preset ∉ VALID_PRESETS))) := by
  refine ⟨?_, ?_, ?_⟩
  · intro hnd
    have hlen : (shapeIds shapes).dedup.length ≠ (shapeIds shapes).length := fun h =>
      hnd ((dedup_length_eq_iff (shapeIds shapes)).mp h)
    refine ⟨((shapeIds shapes).filter (fun x => 1 < (shapeIds shapes).count x)).dedup,
      ?_, ?_, ?_⟩
    · rw [validate_definition]
      exact if_pos hlen
    · intro hnil
      apply hnd
      rw [List.nodup_iff_count_le_one]
      intro a
      by_contra hcnt
      have ha2 : 1 < (shapeIds shapes).count a := by omega
      have hmem : a ∈ shapeIds shapes := by
        rw [← List.count_pos_iff]; omega
      have : a ∈ ((shapeIds shapes).filter
          (fun x => 1 < (shapeIds shapes).count x)).dedup := by
        rw [List.mem_dedup, List.mem_filter]
        exact ⟨hmem, by simpa using ha2⟩
      simp [hnil] at this
    · intro x
      rw [List.mem_dedup, List.mem_filter]
      constructor
      · rintro ⟨-, h⟩
        have := of_decide_eq_true h
        omega
      · intro h
        refine ⟨?_, by simp; omega⟩
        rw [← List.count_pos_iff]; omega
  · intro hnd hbad
    have hlen : ¬ (shapeIds shapes).dedup.length ≠ (shapeIds shapes).length :=
      not_not_intro ((dedup_length_eq_iff (shapeIds shapes)).mpr hnd)
    obtain ⟨m, hm, hc, hres⟩ := checkConnections_error (shapeIds shapes) connections hbad
    refine ⟨m, hm, hc, ?_⟩
    rcases hres with hres | hres <;> rw [validate_definition, if_neg hlen, hres]
    · exact Or.inl rfl
    · exact Or.inr rfl
  · intro hnd hgood
    have hlen : ¬ (shapeIds shapes).dedup.length ≠ (shapeIds shapes).length :=
      not_not_intro ((dedup_length_eq_iff (shapeIds shapes)).mpr hnd)
    have hok := checkConnections_ok (shapeIds shapes) connections hgood
    refine ⟨selfLoopWarns connections ++ shapes.flatMap shapeWarns, ?_, ?_, ?_, ?_⟩
    · rw [validate_definition, if_neg hlen, hok]
    · rw [List.countP_append, countP_selfLoopWarns, (countP_shapeWarns shapes).1]
      omega
    · rw [List.countP_append, (countP_shapeWarns shapes).2.1,
        countP_selfLoopWarns_other _ _ (fun _ => rfl)]
      omega
    · rw [List.countP_append, (countP_shapeWarns shapes).2.2,
        countP_selfLoopWarns_other _ _ (fun _ => rfl)]
      omega

/-- Witness for C1: a concrete one-shape definition with a self-loop
connection and an unrecognized preset; all hypotheses of the third conjunct
hold by computation. -/
theorem validate_definition_spec_witness :
    (shapeIds [⟨"a", "x", "blob", ""⟩]).Nodup ∧
    (∀ c ∈ ([⟨"a", "a", ""⟩] : List ConnectionSpec),
      c.src ∈ shapeIds [⟨"a", "x", "blob", ""⟩] ∧
      c.tgt ∈ shapeIds [⟨"a", "x", "blob", ""⟩]) ∧
    (∃ ws, validate_definition [⟨"a", "x", "blob", ""⟩] [⟨"a", "a", ""⟩] = Except.ok ws ∧
      ws.countP isSelfLoopW =
        ([⟨"a", "a", ""⟩] : List ConnectionSpec).countP (fun c => decide (c.src = c.tgt)) ∧
      ws.countP isEmptyTextW =
        ([⟨"a", "x", "blob", ""⟩] : List ShapeSpec).countP (fun s => pyIsBlank s.text) ∧
      ws.countP isUnknownPresetW =
        ([⟨"a", "x", "blob", ""⟩] : List ShapeSpec).countP
          (fun s => decide (s.preset ≠ "" ∧ s.preset ∉ VALID_PRESETS))) :=
  ⟨by decide, by decide,
    (validate_definition_spec [⟨"a", "x", "blob", ""⟩] [⟨"a", "a", ""⟩]).2.2
      (by decide) (by decide)⟩

theorem max_abs_sub_le (a : Int) (h : 0 ≤ a) : abs (max a 1 - a) ≤ 1 := by
  rcases le_total a 1 with h1 | h1
  · rw [max_eq_right h1, abs_le]
    omega
  · rw [max_eq_left h1]
    simp

/-- C2: for every connector the layout engine produces, its rect is within
±1 EMU of the minimal bounding box of its two anchor points re-derived from
the referenced shapes' rects and anchor indices, and the flip flags equal the
strict sign of (target anchor − source anchor) on each axis.  Stated in
general for `compute_connector_bbox` (whose results feed every placed
connector) and checked on the whole layout `compute_layout` produces. -/
theorem connector_bbox_flip_spec :
    (∀ (src tgt : Rect) (dir : ConnDirection),
      ∃ sp tp,
        connection_point src (compute_connector_bbox src tgt dir).src_idx = some sp ∧
        connection_point tgt (compute_connector_bbox src tgt dir).tgt_idx = some tp ∧
        (compute_connector_bbox src tgt dir).rect.x = min sp.1 tp.1 ∧
        (compute_connector_bbox src tgt dir).rect.y = min sp.2 tp.2 ∧
        abs ((compute_connector_bbox src tgt dir).rect.cx - |tp.1 - sp.1|) ≤ 1 ∧
        abs ((compute_connector_bbox src tgt dir).rect.cy - |tp.2 - sp.2|) ≤ 1 ∧
        (compute_connector_bbox src tgt dir).flip_h = decide (tp.1 < sp.1) ∧
        (compute_connector_bbox src tgt dir).flip_v = decide (tp.2 < sp.2)) ∧
    compute_layout = some flowLayout ∧
    flowLayout.connectors.all (connGeomOK flowLayout.shapes) = true := by
  refine ⟨?_, by decide, by decide⟩
  intro src tgt dir
  cases dir
  · exact ⟨(src.x + src.cx, src.y + src.cy / 2), (tgt.x, tgt.y + tgt.cy / 2),
      rfl, rfl, rfl, rfl, max_abs_sub_le _ (abs_nonneg _),
      max_abs_sub_le _ (abs_nonneg _), rfl, rfl⟩
  · exact ⟨(src.x + src.cx / 2, src.y + src.cy), (tgt.x + tgt.cx / 2, tgt.y),
      rfl, rfl, rfl, rfl, max_abs_sub_le _ (abs_nonneg _),
      max_abs_sub_le _ (abs_nonneg _), rfl, rfl⟩

/-- C3: the id counter starts at the fixed constant 2 and is incremented once
per emitted primitive in the fixed traversal order (title, background, then
shapes, connectors, labels in definition order) — the allocation-order id
list is exactly the consecutive range 2..13 — and consequently the combined
shape/connector/label id set has no duplicates. -/
theorem compute_layout_id_allocation :
    compute_layout = some flowLayout ∧
    layoutPrimIds flowLayout = [2, 3, 4, 5, 6, 7, 8, 9, 10, 11, 12, 13] ∧
    (allLayoutIds flowLayout.shapes flowLayout.connectors flowLayout.labels).Nodup :=
  ⟨by decide, by decide, by decide⟩

/-- C10: every connector bounding box the engine produces has width ≥ 1 and
height ≥ 1 (`compute_connector_bbox` clamps each extent to at least 1), so
the layout validator's degenerate-connector branch appends nothing for the
connectors `compute_layout` produces. -/
theorem connector_bbox_nondegenerate :
    (∀ (src tgt : Rect) (dir : ConnDirection),
      1 ≤ (compute_connector_bbox src tgt dir).rect.cx ∧
      1 ≤ (compute_connector_bbox src tgt dir).rect.cy) ∧
    compute_layout = some flowLayout ∧
    flowLayout.connectors.all
      (fun pc => decide (1 ≤ pc.rect.cx) && decide (1 ≤ pc.rect.cy)) = true ∧
    degenWarns flowLayout.connectors = [] := by
  refine ⟨?_, by decide, by decide, by decide⟩
  intro src tgt dir
  cases dir <;> exact ⟨le_max_right _ _, le_max_right _ _⟩

theorem fontCandidates_sorted (mn mx : Int) :
    (fontCandidates mn mx).Pairwise (fun a b => a > b) := by
  unfold fontCandidates
  rw [List.pairwise_map]
  refine (List.pairwise_lt_range _).imp ?_
  intro a b h
  have hb : (a : Int) < (b : Int) := by exact_mod_cast h
  omega

/-- The body of `estimate_font_size` for nonempty text, with the usable
interior spelled out (the definition zeta-reduces to this form). -/
theorem estimate_font_size_eq (text : String) (cx cy mn mx : Int) (hne : ¬ text = "") :
    estimate_font_size text cx cy mn mx =
      match (fontCandidates mn mx).find?
          (fun sz => fontFits (text.length : Int) sz (cx - 182880) (cy - 91440)) with
      | some sz => sz
      | none => mn := by
  rw [estimate_font_size, if_neg hne]

theorem find?_pairwise_gt {l : List Int} {p : Int → Bool}
    (hl : l.Pairwise (fun a b => a > b)) {x : Int} (hfind : l.find? p = some x) :
    p x = true ∧ x ∈ l ∧ ∀ y ∈ l, p y = true → y ≤ x := by
  induction l with
  | nil => simp at hfind
  | cons a t ih =>
    by_cases hp : p a = true
    · rw [List.find?_cons_of_pos _ hp] at hfind
      injection hfind with hfind
      subst hfind
      refine ⟨hp, List.mem_cons_self _ _, ?_⟩
      intro y hy _
      rcases List.mem_cons.mp hy with hya | hyt
      · omega
      · exact le_of_lt (List.rel_of_pairwise_cons hl hyt)
    · rw [List.find?_cons_of_neg _ hp] at hfind
      obtain ⟨h1, h2, h3⟩ := ih (List.Pairwise.of_cons hl) hfind
      refine ⟨h1, List.mem_cons_of_mem _ h2, ?_⟩
      intro y hy hpy
      rcases List.mem_cons.mp hy with hya | hyt
      · subst hya; exact absurd hpy hp
      · exact h3 y hyt hpy

/-- C5 counterexample: on empty text with a box smaller than the fixed
padding, no candidate size fits, yet `estimate_font_size` returns `max_size`
(1400) instead of the claimed `min_size` (800) — the empty-text short-circuit
returns `max_size` unconditionally. -/
theorem estimate_font_size_empty_text_cex :
    estimate_font_size "" 0 0 800 1400 = 1400 ∧
    (∀ sz ∈ fontCandidates 800 1400,
      fontFits ((("" : String).length : Int)) sz (0 - 182880) (0 - 91440) = false) ∧
    (1400 : Int) ≠ 800 := by
  refine ⟨by decide, ?_, by decide⟩
  decide

/-- C5 (amended): for empty text `estimate_font_size` returns `max_size`
unconditionally; for nonempty text it returns the largest candidate in the
descending discrete range for which both the estimated width and line height
fit the usable interior, or `min_size` when none fits; and whenever the
minimum size's requirement fits the box, the returned size's estimated text
width never exceeds the usable width (`text_fits` holds). -/
theorem estimate_font_size_spec (text : String) (cx cy mn mx : Int) :
    (text = "" → estimate_font_size text cx cy mn mx = mx) ∧
    (text ≠ "" →
      (∃ sz ∈ fontCandidates mn mx,
        fontFits (text.length : Int) sz (cx - 182880) (cy - 91440) = true) →
      estimate_font_size text cx cy mn mx ∈ fontCandidates mn mx ∧
      fontFits (text.length : Int) (estimate_font_size text cx cy mn mx)
        (cx - 182880) (cy - 91440) = true ∧
      ∀ sz ∈ fontCandidates mn mx,
        fontFits (text.length : Int) sz (cx - 182880) (cy - 91440) = true →
        sz ≤ estimate_font_size text cx cy mn mx) ∧
    (text ≠ "" →
      (∀ sz ∈ fontCandidates mn mx,
        fontFits (text.length : Int) sz (cx - 182880) (cy - 91440) = false) →
      estimate_font_size text cx cy mn mx = mn) ∧
    (fontFits (text.length : Int) mn (cx - 182880) (cy - 91440) = true →
      text_fits text cx (estimate_font_size text cx cy mn mx) = true) := by
  refine ⟨?_, ?_, ?_, ?_⟩
  · intro h
    simp [estimate_font_size, h]
  · intro hne hex
    rw [estimate_font_size_eq text cx cy mn mx hne]
    rcases hfind : (fontCandidates mn mx).find?
        (fun sz => fontFits (text.length : Int) sz (cx - 182880) (cy - 91440)) with
      _ | sz
    · obtain ⟨sz, hsz, hfit⟩ := hex
      have := List.find?_eq_none.mp hfind sz hsz
      simp [hfit] at this
    · obtain ⟨h1, h2, h3⟩ := find?_pairwise_gt (fontCandidates_sorted mn mx) hfind
      exact ⟨h2, h1, h3⟩
  · intro hne hall
    rw [estimate_font_size_eq text cx cy mn mx hne]
    rcases hfind : (fontCandidates mn mx).find?
        (fun sz => fontFits (text.length : Int) sz (cx - 182880) (cy - 91440)) with
      _ | sz
    · rfl
    · have h1 := List.find?_some hfind
      have h2 := List.mem_of_find?_eq_some hfind
      rw [hall sz h2] at h1
      exact absurd h1 (by decide)
  · intro hfitmin
    by_cases hne : text = ""
    · simp [text_fits, hne]
    · have hwidth : ∀ sz : Int,
          fontFits (text.length : Int) sz (cx - 182880) (cy - 91440) = true →
          text_fits text cx sz = true := by
        intro sz hsz
        rw [fontFits, Bool.and_eq_true, decide_eq_true_eq, decide_eq_true_eq] at hsz
        rw [text_fits, if_neg hne, decide_eq_true_eq]
        exact hsz.1
      rw [estimate_font_size_eq text cx cy mn mx hne]
      rcases hfind : (fontCandidates mn mx).find?
          (fun sz => fontFits (text.length : Int) sz (cx - 182880) (cy - 91440)) with
        _ | sz
      · exact hwidth mn hfitmin
      · have h1 := List.find?_some hfind
        exact hwidth sz h1

/-- Witness for C5 (amended): the flowchart's own "START" label in a
terminator box; the largest candidate 1400 fits, and the fit hypotheses are
discharged by computation. -/
theorem estimate_font_size_spec_witness :
    ("START" : String) ≠ "" ∧
    (∃ sz ∈ fontCandidates 800 1400,
      fontFits (("START".length : Int)) sz (1371600 - 182880) (571500 - 91440) = true) ∧
    (estimate_font_size "START" 1371600 571500 800 1400 ∈ fontCandidates 800 1400 ∧
      fontFits (("START".length : Int)) (estimate_font_size "START" 1371600 571500 800 1400)
        (1371600 - 182880) (571500 - 91440) = true ∧
      ∀ sz ∈ fontCandidates 800 1400,
        fontFits (("START".length : Int)) sz (1371600 - 182880) (571500 - 91440) = true →
        sz ≤ estimate_font_size "START" 1371600 571500 800 1400) :=
  ⟨by decide, by decide,
    (estimate_font_size_spec "START" 1371600 571500 800 1400).2.1 (by decide) (by decide)⟩

/-- C7: `center_row(n, w, g)` places item `i` at
`start + i*(w+g)` with `start = (L - (n*w + (n-1)*g)) / 2` (floor division,
`L` the slide width), and when the block fits the axis the leftmost item's
left margin equals the rightmost item's right margin within 1 EMU (the
difference is the parity remainder of the division, 0 or 1). -/
theorem center_row_spec (n sw gap : Int) (hn : 1 ≤ n)
    (hfit : n * sw + (n - 1) * gap ≤ SLIDE_W) :
    (∀ i : ℕ, i < n.toNat →
      (center_row n sw gap)[i]? =
        some ((SLIDE_W - (n * sw + (n - 1) * gap)) / 2 + (i : Int) * (sw + gap))) ∧
    (center_row n sw gap).head? = some ((SLIDE_W - (n * sw + (n - 1) * gap)) / 2) ∧
    (center_row n sw gap).getLast? =
      some ((SLIDE_W - (n * sw + (n - 1) * gap)) / 2 + (n - 1) * (sw + gap)) ∧
    0 ≤ (SLIDE_W - (((SLIDE_W - (n * sw + (n - 1) * gap)) / 2 + (n - 1) * (sw + gap)) + sw)) -
        (SLIDE_W - (n * sw + (n - 1) * gap)) / 2 ∧
    (SLIDE_W - (((SLIDE_W - (n * sw + (n - 1) * gap)) / 2 + (n - 1) * (sw + gap)) + sw)) -
        (SLIDE_W - (n * sw + (n - 1) * gap)) / 2 ≤ 1 := by
  have hpos : 0 < n.toNat := by omega
  have hget : ∀ i : ℕ, i < n.toNat →
      (center_row n sw gap)[i]? =
        some ((SLIDE_W - (n * sw + (n - 1) * gap)) / 2 + (i : Int) * (sw + gap)) := by
    intro i hi
    rw [center_row, List.getElem?_map, List.getElem?_range hi]
    rfl
  have hkey : (n - 1) * (sw + gap) + sw = n * sw + (n - 1) * gap := by ring
  have hmargin : ∀ M : Int,
      0 ≤ SLIDE_W - ((SLIDE_W - M) / 2 + M) - (SLIDE_W - M) / 2 ∧
      SLIDE_W - ((SLIDE_W - M) / 2 + M) - (SLIDE_W - M) / 2 ≤ 1 := by
    intro M
    simp only [SLIDE_W]
    omega
  have heq : SLIDE_W - (((SLIDE_W - (n * sw + (n - 1) * gap)) / 2 + (n - 1) * (sw + gap)) + sw) -
        (SLIDE_W - (n * sw + (n - 1) * gap)) / 2 =
      SLIDE_W - ((SLIDE_W - (n * sw + (n - 1) * gap)) / 2 + (n * sw + (n - 1) * gap)) -
        (SLIDE_W - (n * sw + (n - 1) * gap)) / 2 := by
    linear_combination -hkey
  refine ⟨hget, ?_, ?_, ?_, ?_⟩
  · rw [List.head?_eq_getElem?, hget 0 hpos]
    simp
  · have hlen : (center_row n sw gap).length = n.toNat := by
      rw [center_row, List.length_map, List.length_range]
    rw [List.getLast?_eq_getElem?, hlen, hget (n.toNat - 1) (by omega)]
    congr 2
    have : ((n.toNat - 1 : ℕ) : Int) = n - 1 := by omega
    rw [this]
  · rw [heq]
    exact (hmargin _).1
  · rw [heq]
    exact (hmargin _).2

/-- Witness for C7: three flowchart-sized boxes with the standard gap on the
standard slide width. -/
theorem center_row_spec_witness :
    (1 : Int) ≤ 3 ∧ 3 * 1371600 + (3 - 1) * 228600 ≤ SLIDE_W ∧
    (center_row 3 1371600 228600).head? =
      some ((SLIDE_W - (3 * 1371600 + (3 - 1) * 228600)) / 2) :=
  ⟨by decide, by decide,
    (center_row_spec 3 1371600 228600 (by decide) (by decide)).2.1⟩

theorem connCheck_ok (s : List PlacedShape) (c : List PlacedConnector)
    (h : ∀ pc ∈ c, (s.any (fun ps => ps.shape_id == pc.src_shape_id)) = true ∧
        (s.any (fun ps => ps.shape_id == pc.tgt_shape_id)) = true) :
    connCheck s c = Except.ok (c.flatMap (connWarnsOne s)) := by
  induction c with
  | nil => rfl
  | cons pc rest ih =>
    have hpc := h pc (List.mem_cons_self pc rest)
    have hrest : ∀ x ∈ rest, (s.any (fun ps => ps.shape_id == x.src_shape_id)) = true ∧
        (s.any (fun ps => ps.shape_id == x.tgt_shape_id)) = true :=
      fun x hx => h x (List.mem_cons_of_mem pc hx)
    rw [connCheck, if_pos hpc.1, if_pos hpc.2, ih hrest, List.flatMap_cons]

theorem connCheck_error_cases (s : List PlacedShape) (c : List PlacedConnector)
    (e : LayoutError) (h : connCheck s c = Except.error e) :
    ∃ pc ∈ c, (s.any (fun ps => ps.shape_id == pc.src_shape_id)) = false ∨
      (s.any (fun ps => ps.shape_id == pc.tgt_shape_id)) = false := by
  induction c generalizing e with
  | nil => exact absurd h (by rw [connCheck]; exact fun hx => by cases hx)
  | cons pc rest ih =>
    cases hsrc : s.any (fun ps => ps.shape_id == pc.src_shape_id) with
    | false => exact ⟨pc, List.mem_cons_self pc rest, Or.inl hsrc⟩
    | true =>
      cases htgt : s.any (fun ps => ps.shape_id == pc.tgt_shape_id) with
      | false => exact ⟨pc, List.mem_cons_self pc rest, Or.inr htgt⟩
      | true =>
        rw [connCheck, if_pos hsrc, if_pos htgt] at h
        rcases hrec : connCheck s rest with e2 | ws
        · obtain ⟨x, hx, hbad⟩ := ih e2 hrec
          exact ⟨x, List.mem_cons_of_mem pc hx, hbad⟩
        · rw [hrec] at h
          cases h

theorem pairOverlapWarns_mem (s : List PlacedShape) :
    ∀ i j : ℕ, ∀ (hi : i < s.length) (hj : j < s.length), i < j →
      rects_overlap s[i].rect s[j].rect = true →
      LWarn.overlap s[i].key s[j].key ∈ pairOverlapWarns s := by
  induction s with
  | nil => intro i j hi; simp at hi
  | cons a t ih =>
    intro i j hi hj hij hov
    cases i with
    | zero =>
      cases j with
      | zero => omega
      | succ j₂ =>
        have hj₂ : j₂ < t.length := by simpa using hj
        rw [pairOverlapWarns]
        refine List.mem_append.mpr (Or.inl ?_)
        rw [List.mem_map]
        refine ⟨t[j₂], List.mem_filter.mpr ⟨List.getElem_mem hj₂, ?_⟩, ?_⟩
        · simpa using hov
        · simp
    | succ i₂ =>
      cases j with
      | zero => omega
      | succ j₂ =>
        have hi₂ : i₂ < t.length := by simpa using hi
        have hj₂ : j₂ < t.length := by simpa using hj
        rw [pairOverlapWarns]
        refine List.mem_append.mpr (Or.inr ?_)
        have := ih i₂ j₂ hi₂ hj₂ (by omega) (by simpa using hov)
        simpa using this

theorem connWarnsOne_flip_mem (s : List PlacedShape) (pc : PlacedConnector)
    (sshape tshape : PlacedShape) (sp tp : Int × Int)
    (h1 : lookupShapeById s pc.src_shape_id = some sshape)
    (h2 : lookupShapeById s pc.tgt_shape_id = some tshape)
    (h3 : connection_point sshape.rect pc.src_idx = some sp)
    (h4 : connection_point tshape.rect pc.tgt_idx = some tp) :
    (pc.flip_h ≠ decide (tp.1 < sp.1) →
      LWarn.flipHMismatch pc.conn_id pc.flip_h (decide (tp.1 < sp.1)) ∈ connWarnsOne s pc) ∧
    (pc.flip_v ≠ decide (tp.2 < sp.2) →
      LWarn.flipVMismatch pc.conn_id pc.flip_v (decide (tp.2 < sp.2)) ∈ connWarnsOne s pc) := by
  constructor <;> intro hne <;>
    simp only [connWarnsOne, h1, h2, h3, h4, List.mem_append, List.mem_singleton] <;>
    simp [hne]

/-- C4: the layout validator raises only for structural defects — a connector
whose source/target shape id resolves to no placed shape, or a duplicate
identifier across shapes/connectors/labels — and on structurally sound input
(with data-model-conforming anchor indices, outside which the Python source
crashes rather than validating) it returns its warning list without raising,
and that list contains a warning naming the offender for every quality
defect: text overflow at the assigned font size, an out-of-bounds shape
rectangle, a degenerate connector bounding box, an overlapping shape pair,
and a flip flag inconsistent with the geometry re-derived from the referenced
shapes' anchor points. -/
theorem validate_spec (s : List PlacedShape) (c : List PlacedConnector)
    (l : List PlacedLabel) :
    (∀ e, validate s c l = Except.error e →
      (∃ pc ∈ c, (∀ ps ∈ s, ps.shape_id ≠ pc.src_shape_id) ∨
        (∀ ps ∈ s, ps.shape_id ≠ pc.tgt_shape_id)) ∨
      ¬ (allLayoutIds s c l).Nodup) ∧
    ((∀ pc ∈ c, validAnchorIdx pc.src_idx ∧ validAnchorIdx pc.tgt_idx) →
      (∀ pc ∈ c, (∃ ps ∈ s, ps.shape_id = pc.src_shape_id) ∧
        (∃ ps ∈ s, ps.shape_id = pc.tgt_shape_id)) →
      (allLayoutIds s c l).Nodup →
      ∃ ws, validate s c l = Except.ok ws ∧
        (∀ ps ∈ s, text_fits ps.text ps.rect.cx ps.font_size = false →
          LWarn.textOverflow ps.text ps.key ∈ ws) ∧
        (∀ ps ∈ s, (ps.rect.x < 0 ∨ ps.rect.y < 0 ∨ SLIDE_W < ps.rect.x + ps.rect.cx ∨
          SLIDE_H < ps.rect.y + ps.rect.cy) → LWarn.outOfBounds ps.key ∈ ws) ∧
        (∀ pc ∈ c, (pc.rect.cx ≤ 0 ∨ pc.rect.cy ≤ 0) →
          LWarn.degenerate pc.conn_id ∈ ws) ∧
        (∀ i j : ℕ, ∀ (hi : i < s.length) (hj : j < s.length), i < j →
          rects_overlap s[i].rect s[j].rect = true →
          LWarn.overlap s[i].key s[j].key ∈ ws) ∧
        (∀ pc ∈ c, ∀ (sshape tshape : PlacedShape) (sp tp : Int × Int),
          lookupShapeById s pc.src_shape_id = some sshape →
          lookupShapeById s pc.tgt_shape_id = some tshape →
          connection_point sshape.rect pc.src_idx = some sp →
          connection_point tshape.rect pc.tgt_idx = some tp →
          (pc.flip_h ≠ decide (tp.1 < sp.1) →
            LWarn.flipHMismatch pc.conn_id pc.flip_h (decide (tp.1 < sp.1)) ∈ ws) ∧
          (pc.flip_v ≠ decide (tp.2 < sp.2) →
            LWarn.flipVMismatch pc.conn_id pc.flip_v (decide (tp.2 < sp.2)) ∈ ws))) := by
  constructor
  · intro e he
    rw [validate] at he
    rcases hcc : connCheck s c with e2 | cWs
    · rw [hcc] at he
      injection he with he2
      left
      obtain ⟨pc, hpc, hbad⟩ := connCheck_error_cases s c e2 hcc
      refine ⟨pc, hpc, ?_⟩
      rcases hbad with hbad | hbad
      · left
        intro ps hps
        have := List.any_eq_false.mp hbad ps hps
        simpa using this
      · right
        intro ps hps
        have := List.any_eq_false.mp hbad ps hps
        simpa using this
    · rw [hcc] at he
      by_cases hlen : (allLayoutIds s c l).dedup.length ≠ (allLayoutIds s c l).length
      · right
        intro hnd
        exact hlen ((dedup_length_eq_iff _).mpr hnd)
      · have he2 : (if (allLayoutIds s c l).dedup.length ≠ (allLayoutIds s c l).length
            then Except.error LayoutError.dupIds
            else Except.ok (s.flatMap shapeQualityWarns ++ pairOverlapWarns s ++
              boundsWarns s ++ degenWarns c ++ cWs)) = Except.error e := he
        rw [if_neg hlen] at he2
        cases he2
  · intro _hidx hresolve hnd
    have hany : ∀ pc ∈ c, (s.any (fun ps => ps.shape_id == pc.src_shape_id)) = true ∧
        (s.any (fun ps => ps.shape_id == pc.tgt_shape_id)) = true := by
      intro pc hpc
      obtain ⟨⟨ps1, hps1, he1⟩, ⟨ps2, hps2, he2⟩⟩ := hresolve pc hpc
      constructor <;> rw [List.any_eq_true]
      · exact ⟨ps1, hps1, by simp [he1]⟩
      · exact ⟨ps2, hps2, by simp [he2]⟩
    have hcc := connCheck_ok s c hany
    have hlen : ¬ (allLayoutIds s c l).dedup.length ≠ (allLayoutIds s c l).length :=
      not_not_intro ((dedup_length_eq_iff _).mpr hnd)
    refine ⟨s.flatMap shapeQualityWarns ++ pairOverlapWarns s ++ boundsWarns s ++
      degenWarns c ++ c.flatMap (connWarnsOne s), ?_, ?_, ?_, ?_, ?_, ?_⟩
    · simp only [validate, hcc]
      rw [if_neg hlen]
    · intro ps hps hcond
      refine List.mem_append.mpr (Or.inl (List.mem_append.mpr (Or.inl
        (List.mem_append.mpr (Or.inl (List.mem_append.mpr (Or.inl ?_)))))))
      rw [List.mem_flatMap]
      exact ⟨ps, hps, by simp [shapeQualityWarns, hcond]⟩
    · intro ps hps hcond
      refine List.mem_append.mpr (Or.inl (List.mem_append.mpr (Or.inl
        (List.mem_append.mpr (Or.inr ?_)))))
      rw [boundsWarns, List.mem_filterMap]
      exact ⟨ps, hps, by rw [if_pos hcond]⟩
    · intro pc hpc hcond
      refine List.mem_append.mpr (Or.inl (List.mem_append.mpr (Or.inr ?_)))
      rw [degenWarns, List.mem_filterMap]
      exact ⟨pc, hpc, by rw [if_pos hcond]⟩
    · intro i j hi hj hij hov
      refine List.mem_append.mpr (Or.inl (List.mem_append.mpr (Or.inl
        (List.mem_append.mpr (Or.inl (List.mem_append.mpr (Or.inr ?_)))))))
      exact pairOverlapWarns_mem s i j hi hj hij hov
    · intro pc hpc sshape tshape sp tp h1 h2 h3 h4
      have hmem := connWarnsOne_flip_mem s pc sshape tshape sp tp h1 h2 h3 h4
      constructor <;> intro hne
      · refine List.mem_append.mpr (Or.inr ?_)
        rw [List.mem_flatMap]
        exact ⟨pc, hpc, hmem.1 hne⟩
      · refine List.mem_append.mpr (Or.inr ?_)
        rw [List.mem_flatMap]
        exact ⟨pc, hpc, hmem.2 hne⟩

/-- Witness for C4: a single shape whose 24-character text cannot fit its
0.22-inch-wide box at the assigned minimum font size; `validate` returns a
warning list containing the text-overflow warning naming that shape, and does
not raise. -/
theorem validate_spec_witness :
    (allLayoutIds [⟨4, "s1", "AAAAAAAAAAAAAAAAAAAAAAAA", "rect", ⟨0, 0, 200000, 200000⟩,
        "FFFFFF", "000000", "000000", 800, true, true, 3⟩] [] []).Nodup ∧
    (∃ ws, validate [⟨4, "s1", "AAAAAAAAAAAAAAAAAAAAAAAA", "rect", ⟨0, 0, 200000, 200000⟩,
        "FFFFFF", "000000", "000000", 800, true, true, 3⟩] [] [] = Except.ok ws ∧
      LWarn.textOverflow "AAAAAAAAAAAAAAAAAAAAAAAA" "s1" ∈ ws) := by
  refine ⟨by decide, ?_⟩
  obtain ⟨ws, hok, hover, -, -, -, -⟩ :=
    (validate_spec [⟨4, "s1", "AAAAAAAAAAAAAAAAAAAAAAAA", "rect", ⟨0, 0, 200000, 200000⟩,
      "FFFFFF", "000000", "000000", 800, true, true, 3⟩] [] []).2
      (by simp) (by simp) (by decide)
  refine ⟨ws, hok, ?_⟩
  have hm := hover (⟨4, "s1", "AAAAAAAAAAAAAAAAAAAAAAAA", "rect", ⟨0, 0, 200000, 200000⟩,
      "FFFFFF", "000000", "000000", 800, true, true, 3⟩ : PlacedShape)
    (by decide) (by decide)
  exact hm

theorem segLen_translate (m a b : Int × Int) :
    segLen (a.1 - m.1, a.2 - m.2) (b.1 - m.1, b.2 - m.2) = segLen a b := by
  unfold segLen
  have h1 : (b.1 - m.1) - (a.1 - m.1) = b.1 - a.1 := by ring
  have h2 : (b.2 - m.2) - (a.2 - m.2) = b.2 - a.2 := by ring
  rw [h1, h2]

theorem direction_translate (m a b : Int × Int) :
    direction (a.1 - m.1, a.2 - m.2) (b.1 - m.1, b.2 - m.2) = direction a b := by
  unfold direction
  have h1 : (b.1 - m.1) - (a.1 - m.1) = b.1 - a.1 := by ring
  have h2 : (b.2 - m.2) - (a.2 - m.2) = b.2 - a.2 := by ring
  rw [h1, h2]

theorem segLens_translate (m : Int × Int) (pts : List (Int × Int)) :
    segLens (pts.map (fun p => (p.1 - m.1, p.2 - m.2))) = segLens pts := by
  induction pts with
  | nil => rfl
  | cons a t ih =>
    cases t with
    | nil => rfl
    | cons b t2 =>
      show segLen (a.1 - m.1, a.2 - m.2) (b.1 - m.1, b.2 - m.2) ::
          segLens ((b :: t2).map (fun p => (p.1 - m.1, p.2 - m.2))) =
        segLen a b :: segLens (b :: t2)
      rw [segLen_translate, ih]

theorem turnDirs_translate (m : Int × Int) (pts : List (Int × Int)) :
    turnDirs (pts.map (fun p => (p.1 - m.1, p.2 - m.2))) = turnDirs pts := by
  induction pts with
  | nil => rfl
  | cons a t ih =>
    cases t with
    | nil => rfl
    | cons b t2 =>
      show direction (a.1 - m.1, a.2 - m.2) (b.1 - m.1, b.2 - m.2) ::
          turnDirs ((b :: t2).map (fun p => (p.1 - m.1, p.2 - m.2))) =
        direction a b :: turnDirs (b :: t2)
      rw [direction_translate, ih]

theorem hasBadTurn_translate (m : Int × Int) (pts : List (Int × Int)) :
    hasBadTurn (pts.map (fun p => (p.1 - m.1, p.2 - m.2))) = hasBadTurn pts := by
  rw [hasBadTurn, hasBadTurn, turnPairs, turnPairs, turnDirs_translate]

theorem emitSegs_arcRadii (radius : Int) (prev : Int × Int)
    (rest : List (Int × Int)) (cmds : List PathCmd)
    (h : emitSegs radius prev rest = Except.ok cmds) :
    arcRadii cmds = clampedRadii radius (prev :: rest) := by
  induction rest generalizing prev cmds with
  | nil =>
    injection h with h
    subst h
    rfl
  | cons q rest2 ih =>
    cases rest2 with
    | nil =>
      injection h with h
      subst h
      rfl
    | cons r rest3 =>
      rw [emitSegs] at h
      rcases harc : ARC (direction prev q) (direction q r) with _ | pr
      · rw [harc] at h
        cases h
      · rw [harc] at h
        obtain ⟨st, sw⟩ := pr
        rcases hrec : emitSegs radius q (r :: rest3) with e2 | tail
        · rw [hrec] at h
          cases h
        · rw [hrec] at h
          injection h with h
          subst h
          show min radius (min (segLen prev q / 2) (segLen q r / 2)) :: arcRadii tail =
            clampedRadii radius (prev :: q :: r :: rest3)
          rw [ih q tail hrec]
          rfl

/-- C6: for every interior waypoint of a routed connector, the corner radius
actually emitted in the arc command equals
`min(configuredRadius, seg_before // 2, seg_after // 2)` (integer halving of
the two adjacent segment lengths), and is therefore never greater than the
configured radius nor than half of either adjacent segment. -/
theorem routed_corner_radius_spec :
    (∀ (wps : List (Int × Int)) (radius : Int) (cmds : List PathCmd),
      buildRoutedConnector wps radius = Except.ok cmds →
      arcRadii cmds = clampedRadii radius wps) ∧
    (∀ (radius : Int) (wps : List (Int × Int)) (i : ℕ) (r s1 s2 : Int),
      (clampedRadii radius wps)[i]? = some r →
      (segLens wps)[i]? = some s1 → (segLens wps)[i + 1]? = some s2 →
      r = min radius (min (s1 / 2) (s2 / 2)) ∧ r ≤ radius ∧ r ≤ s1 / 2 ∧ r ≤ s2 / 2) := by
  constructor
  · intro wps radius cmds h
    rw [buildRoutedConnector] at h
    rcases hwps : wps with _ | ⟨w, rest⟩
    · subst hwps
      cases h
    · subst hwps
      rw [translateWaypoints] at h
      rcases hmx : ((w :: rest).map Prod.fst).min? with _ | mx
      · rw [List.min?_eq_none_iff] at hmx
        cases hmx
      · rcases hmy : ((w :: rest).map Prod.snd).min? with _ | my
        · rw [List.min?_eq_none_iff] at hmy
          cases hmy
        · rw [hmx, hmy] at h
          have h2 : buildPathCmds radius
              ((w :: rest).map (fun p => (p.1 - mx, p.2 - my))) = Except.ok cmds := h
          rw [List.map_cons] at h2
          rw [buildPathCmds] at h2
          rcases hemit : emitSegs radius (w.1 - mx, w.2 - my)
              (rest.map (fun p => (p.1 - mx, p.2 - my))) with e2 | cmds2
          · rw [hemit] at h2
            cases h2
          · rw [hemit] at h2
            injection h2 with h2
            subst h2
            show arcRadii cmds2 = clampedRadii radius (w :: rest)
            have := emitSegs_arcRadii radius (w.1 - mx, w.2 - my)
              (rest.map (fun p => (p.1 - mx, p.2 - my))) cmds2 hemit
            rw [this]
            have hmap : ((w :: rest).map (fun p => (p.1 - (mx, my).1, p.2 - (mx, my).2))) =
                (w.1 - mx, w.2 - my) :: rest.map (fun p => (p.1 - mx, p.2 - my)) := by
              rw [List.map_cons]
            rw [clampedRadii, clampedRadii, ← segLens_translate (mx, my) (w :: rest), hmap]
  · intro radius wps i r s1 s2 h1 h2 h3
    rw [clampedRadii, List.getElem?_zipWith] at h1
    rw [h2, List.getElem?_tail, h3] at h1
    injection h1 with h1
    refine ⟨h1.symm, ?_, ?_, ?_⟩
    · rw [← h1]; exact min_le_left _ _
    · rw [← h1]; exact le_trans (min_le_right _ _) (min_le_left _ _)
    · rw [← h1]; exact le_trans (min_le_right _ _) (min_le_right _ _)

/-- Witness for C6: a four-waypoint Z route with segments 100000, 80000,
100000 EMU and configured radius 150000; both corners are clamped to 40000 =
min(150000, 80000 // 2). -/
theorem routed_corner_radius_spec_witness :
    buildRoutedConnector [(0, 0), (100000, 0), (100000, 80000), (200000, 80000)] 150000 =
      Except.ok [PathCmd.moveTo 0 0, PathCmd.lnTo 60000 0,
        PathCmd.arcTo 40000 40000 16200000 5400000, PathCmd.lnTo 100000 40000,
        PathCmd.arcTo 40000 40000 10800000 (-5400000), PathCmd.lnTo 200000 80000] ∧
    arcRadii [PathCmd.moveTo 0 0, PathCmd.lnTo 60000 0,
        PathCmd.arcTo 40000 40000 16200000 5400000, PathCmd.lnTo 100000 40000,
        PathCmd.arcTo 40000 40000 10800000 (-5400000), PathCmd.lnTo 200000 80000] =
      clampedRadii 150000 [(0, 0), (100000, 0), (100000, 80000), (200000, 80000)] ∧
    ((40000 : Int) = min 150000 (min (100000 / 2) (80000 / 2)) ∧
      (40000 : Int) ≤ 150000 ∧ (40000 : Int) ≤ 100000 / 2 ∧ (40000 : Int) ≤ 80000 / 2) :=
  ⟨by decide,
    routed_corner_radius_spec.1 [(0, 0), (100000, 0), (100000, 80000), (200000, 80000)]
      150000 _ (by decide),
    routed_corner_radius_spec.2 150000
      [(0, 0), (100000, 0), (100000, 80000), (200000, 80000)] 0 40000 100000 80000
      (by decide) (by decide) (by decide)⟩

theorem emitSegs_badTurn (radius : Int) (prev : Int × Int) (rest : List (Int × Int))
    (h : hasBadTurn (prev :: rest) = true) :
    ∃ d1 d2, emitSegs radius prev rest = Except.error (RouteError.missingArc d1 d2) ∧
      ARC d1 d2 = none := by
  induction rest generalizing prev with
  | nil => simp [hasBadTurn, turnPairs, turnDirs] at h
  | cons q rest2 ih =>
    cases rest2 with
    | nil => simp [hasBadTurn, turnPairs, turnDirs] at h
    | cons r rest3 =>
      rcases harc : ARC (direction prev q) (direction q r) with _ | pr
      · refine ⟨direction prev q, direction q r, ?_, harc⟩
        rw [emitSegs, harc]
      · have hrest : hasBadTurn (q :: r :: rest3) = true := by
          rw [hasBadTurn, turnPairs, turnDirs] at h
          rw [hasBadTurn, turnPairs, turnDirs]
          simp only [List.tail_cons, List.zipWith_cons_cons, List.any_cons,
            Bool.or_eq_true] at h ⊢
          rcases h with h | h
          · rw [harc] at h
            simp at h
          · exact h
        obtain ⟨d1, d2, herr, hnone⟩ := ih q hrest
        refine ⟨d1, d2, ?_, hnone⟩
        obtain ⟨st, sw⟩ := pr
        rw [emitSegs, harc, herr]

/-- C9 counterexample: on a U-turn waypoint list the router aborts, but the
error it aborts with carries only the offending direction pair (the Python
`KeyError` payload) — it is identical for two different connector names and
ids, so it does not identify the offending connector. -/
theorem router_uturn_error_cex :
    build_routed_connector_xml [(0, 0), (100, 0), (0, 0)] 7 "ConnA" 150000 =
      Except.error (RouteError.missingArc RouteDir.R RouteDir.L) ∧
    build_routed_connector_xml [(0, 0), (100, 0), (0, 0)] 8 "ConnB" 150000 =
      Except.error (RouteError.missingArc RouteDir.R RouteDir.L) := by
  constructor <;> rfl

/-- C9 (amended): the `ARC` direction-pair table is a closed enumeration over
exactly the 8 valid 90-degree turn combinations, and for a waypoint list
containing an interior waypoint whose (incoming, outgoing) direction pair
falls outside those 8 entries the router aborts with an error carrying that
direction pair (the `KeyError` payload) rather than producing output — the
error does not name the offending connector. -/
theorem arc_table_closed_spec :
    (∀ d1 d2 : RouteDir, (ARC d1 d2).isSome = true ↔ (d1, d2) ∈ validTurns) ∧
    (∀ (wps : List (Int × Int)) (sid : Int) (name : String) (radius : Int),
      hasBadTurn wps = true →
      ∃ d1 d2, build_routed_connector_xml wps sid name radius =
        Except.error (RouteError.missingArc d1 d2) ∧ ARC d1 d2 = none) := by
  constructor
  · intro d1 d2
    cases d1 <;> cases d2 <;> decide
  · intro wps sid name radius h
    rcases hwps : wps with _ | ⟨w, rest⟩
    · subst hwps
      simp [hasBadTurn, turnPairs, turnDirs] at h
    · subst hwps
      rcases hmnx : ((w :: rest).map Prod.fst).min? with _ | mnx
      · rw [List.min?_eq_none_iff] at hmnx
        simp at hmnx
      rcases hmny : ((w :: rest).map Prod.snd).min? with _ | mny
      · rw [List.min?_eq_none_iff] at hmny
        simp at hmny
      rcases hmxx : ((w :: rest).map Prod.fst).max? with _ | mxx
      · rw [List.max?_eq_none_iff] at hmxx
        simp at hmxx
      rcases hmxy : ((w :: rest).map Prod.snd).max? with _ | mxy
      · rw [List.max?_eq_none_iff] at hmxy
        simp at hmxy
      have hred : build_routed_connector_xml (w :: rest) sid name radius =
          (match buildPathCmds radius
              ((w :: rest).map (fun p => (p.1 - mnx, p.2 - mny))) with
           | Except.error e => Except.error e
           | Except.ok cmds =>
             Except.ok ⟨sid, name, (mnx, mny),
               (max (mxx - mnx) 1, max (mxy - mny) 1), cmds⟩) := by
        rw [build_routed_connector_xml, hmnx, hmny, hmxx, hmxy]
      have hbad : hasBadTurn ((w.1 - mnx, w.2 - mny) ::
          rest.map (fun p => (p.1 - mnx, p.2 - mny))) = true := by
        have ht2 : hasBadTurn ((w.1 - mnx, w.2 - mny) ::
            rest.map (fun p => (p.1 - mnx, p.2 - mny))) = hasBadTurn (w :: rest) :=
          hasBadTurn_translate (mnx, mny) (w :: rest)
        rw [ht2, h]
      obtain ⟨d1, d2, herr, hnone⟩ := emitSegs_badTurn radius (w.1 - mnx, w.2 - mny)
        (rest.map (fun p => (p.1 - mnx, p.2 - mny))) hbad
      refine ⟨d1, d2, ?_, hnone⟩
      rw [hred]
      have hpc : buildPathCmds radius
          ((w :: rest).map (fun p => (p.1 - mnx, p.2 - mny))) =
          Except.error (RouteError.missingArc d1 d2) := by
        rw [List.map_cons, buildPathCmds, herr]
      rw [hpc]

/-- Witness for C9 (amended): the U-turn route aborts with the direction-pair
error. -/
theorem arc_table_closed_spec_witness :
    hasBadTurn [(0, 0), (100, 0), (0, 0)] = true ∧
    (∃ d1 d2, build_routed_connector_xml [(0, 0), (100, 0), (0, 0)] 7 "ConnA" 150000 =
      Except.error (RouteError.missingArc d1 d2) ∧ ARC d1 d2 = none) :=
  ⟨by decide, arc_table_closed_spec.2 [(0, 0), (100, 0), (0, 0)] 7 "ConnA" 150000 (by decide)⟩

theorem pyInt_cast (n : ℤ) : pyInt (n : ℝ) = n := by
  unfold pyInt
  by_cases h : (0 : ℝ) ≤ (n : ℝ)
  · rw [if_pos h, Int.floor_intCast]
  · rw [if_neg h]
    rw [show (-(n : ℝ)) = ((-n : ℤ) : ℝ) by push_cast; ring, Int.floor_intCast]
    ring

theorem pyInt_of_nonneg (x : ℝ) (h : 0 ≤ x) : pyInt x = ⌊x⌋ :=
  if_pos h

theorem sqrt3_scaled_bounds :
    (1583787 : ℝ) < 914400 * Real.sqrt 3 ∧ 914400 * Real.sqrt 3 < 1583788 := by
  have hs2 : Real.sqrt 3 ^ 2 = 3 := Real.sq_sqrt (by norm_num)
  have hsnn : (0 : ℝ) ≤ Real.sqrt 3 := Real.sqrt_nonneg 3
  constructor
  · nlinarith [hs2, hsnn,
      (show (0 : ℝ) ≤ 914400 * Real.sqrt 3 + 1583787 by positivity)]
  · nlinarith [hs2, hsnn]

theorem pyInt_pos_sqrt : pyInt ((4572000 : ℝ) + 914400 * Real.sqrt 3) = 6155787 := by
  obtain ⟨hl, hh⟩ := sqrt3_scaled_bounds
  rw [pyInt_of_nonneg _ (by linarith)]
  rw [Int.floor_eq_iff]
  constructor <;> push_cast <;> linarith

theorem pyInt_neg_sqrt : pyInt ((4572000 : ℝ) - 914400 * Real.sqrt 3) = 2988212 := by
  obtain ⟨hl, hh⟩ := sqrt3_scaled_bounds
  rw [pyInt_of_nonneg _ (by linarith)]
  rw [Int.floor_eq_iff]
  constructor <;> push_cast <;> linarith

theorem spokeAngle6_0 : spokeAngle 6 0 = -(Real.pi / 2) := by
  unfold spokeAngle spokeAngleDeg
  push_cast
  ring

theorem spokeAngle6_1 : spokeAngle 6 1 = -(Real.pi / 6) := by
  unfold spokeAngle spokeAngleDeg
  norm_num
  ring

theorem spokeAngle6_2 : spokeAngle 6 2 = Real.pi / 6 := by
  unfold spokeAngle spokeAngleDeg
  norm_num
  ring

theorem spokeAngle6_3 : spokeAngle 6 3 = Real.pi / 2 := by
  unfold spokeAngle spokeAngleDeg
  norm_num
  ring

theorem spokeAngle6_4 : spokeAngle 6 4 = Real.pi - Real.pi / 6 := by
  unfold spokeAngle spokeAngleDeg
  norm_num
  ring

theorem spokeAngle6_5 : spokeAngle 6 5 = Real.pi + Real.pi / 6 := by
  unfold spokeAngle spokeAngleDeg
  norm_num
  ring

theorem spokeCenter_0 : spokeCenter 0 = (4572000, 1028700) := by
  unfold spokeCenter
  rw [show SPOKES.length = 6 from rfl, spokeAngle6_0]
  rw [Real.cos_neg, Real.cos_pi_div_two, Real.sin_neg, Real.sin_pi_div_two]
  rw [show HUB_CENTER_X = 4572000 from rfl, show HUB_CENTER_Y = 2857500 from rfl,
    show HUB_RADIUS = 1828800 from rfl]
  rw [show ((4572000 : ℤ) : ℝ) + ((1828800 : ℤ) : ℝ) * 0 = ((4572000 : ℤ) : ℝ) by
    push_cast; ring]
  rw [show ((2857500 : ℤ) : ℝ) + ((1828800 : ℤ) : ℝ) * -1 = ((1028700 : ℤ) : ℝ) by
    push_cast; norm_num]
  rw [pyInt_cast, pyInt_cast]

theorem spokeCenter_1 : spokeCenter 1 = (6155787, 1943100) := by
  unfold spokeCenter
  rw [show SPOKES.length = 6 from rfl, spokeAngle6_1]
  rw [Real.cos_neg, Real.cos_pi_div_six, Real.sin_neg, Real.sin_pi_div_six]
  rw [show HUB_CENTER_X = 4572000 from rfl, show HUB_CENTER_Y = 2857500 from rfl,
    show HUB_RADIUS = 1828800 from rfl]
  rw [show ((4572000 : ℤ) : ℝ) + ((1828800 : ℤ) : ℝ) * (Real.sqrt 3 / 2) =
      (4572000 : ℝ) + 914400 * Real.sqrt 3 by push_cast; ring]
  rw [show ((2857500 : ℤ) : ℝ) + ((1828800 : ℤ) : ℝ) * -(1 / 2) = ((1943100 : ℤ) : ℝ) by
    push_cast; norm_num]
  rw [pyInt_pos_sqrt, pyInt_cast]

theorem spokeCenter_2 : spokeCenter 2 = (6155787, 3771900) := by
  unfold spokeCenter
  rw [show SPOKES.length = 6 from rfl, spokeAngle6_2]
  rw [Real.cos_pi_div_six, Real.sin_pi_div_six]
  rw [show HUB_CENTER_X = 4572000 from rfl, show HUB_CENTER_Y = 2857500 from rfl,
    show HUB_RADIUS = 1828800 from rfl]
  rw [show ((4572000 : ℤ) : ℝ) + ((1828800 : ℤ) : ℝ) * (Real.sqrt 3 / 2) =
      (4572000 : ℝ) + 914400 * Real.sqrt 3 by push_cast; ring]
  rw [show ((2857500 : ℤ) : ℝ) + ((1828800 : ℤ) : ℝ) * (1 / 2) = ((3771900 : ℤ) : ℝ) by
    push_cast; norm_num]
  rw [pyInt_pos_sqrt, pyInt_cast]

theorem spokeCenter_3 : spokeCenter 3 = (4572000, 4686300) := by
  unfold spokeCenter
  rw [show SPOKES.length = 6 from rfl, spokeAngle6_3]
  rw [Real.cos_pi_div_two, Real.sin_pi_div_two]
  rw [show HUB_CENTER_X = 4572000 from rfl, show HUB_CENTER_Y = 2857500 from rfl,
    show HUB_RADIUS = 1828800 from rfl]
  rw [show ((4572000 : ℤ) : ℝ) + ((1828800 : ℤ) : ℝ) * 0 = ((4572000 : ℤ) : ℝ) by
    push_cast; ring]
  rw [show ((2857500 : ℤ) : ℝ) + ((1828800 : ℤ) : ℝ) * 1 = ((4686300 : ℤ) : ℝ) by
    push_cast; norm_num]
  rw [pyInt_cast, pyInt_cast]

theorem spokeCenter_4 : spokeCenter 4 = (2988212, 3771900) := by
  unfold spokeCenter
  rw [show SPOKES.length = 6 from rfl, spokeAngle6_4]
  rw [Real.cos_pi_sub, Real.cos_pi_div_six, Real.sin_pi_sub, Real.sin_pi_div_six]
  rw [show HUB_CENTER_X = 4572000 from rfl, show HUB_CENTER_Y = 2857500 from rfl,
    show HUB_RADIUS = 1828800 from rfl]
  rw [show ((4572000 : ℤ) : ℝ) + ((1828800 : ℤ) : ℝ) * -(Real.sqrt 3 / 2) =
      (4572000 : ℝ) - 914400 * Real.sqrt 3 by push_cast; ring]
  rw [show ((2857500 : ℤ) : ℝ) + ((1828800 : ℤ) : ℝ) * (1 / 2) = ((3771900 : ℤ) : ℝ) by
    push_cast; norm_num]
  rw [pyInt_neg_sqrt, pyInt_cast]

theorem spokeCenter_5 : spokeCenter 5 = (2988212, 1943100) := by
  unfold spokeCenter
  rw [show SPOKES.length = 6 from rfl, spokeAngle6_5]
  rw [show Real.cos (Real.pi + Real.pi / 6) = -(Real.sqrt 3 / 2) by
    rw [Real.cos_add, Real.cos_pi, Real.sin_pi, Real.cos_pi_div_six]; ring]
  rw [show Real.sin (Real.pi + Real.pi / 6) = -(1 / 2) by
    rw [Real.sin_add, Real.sin_pi, Real.cos_pi, Real.sin_pi_div_six]; ring]
  rw [show HUB_CENTER_X = 4572000 from rfl, show HUB_CENTER_Y = 2857500 from rfl,
    show HUB_RADIUS = 1828800 from rfl]
  rw [show ((4572000 : ℤ) : ℝ) + ((1828800 : ℤ) : ℝ) * -(Real.sqrt 3 / 2) =
      (4572000 : ℝ) - 914400 * Real.sqrt 3 by push_cast; ring]
  rw [show ((2857500 : ℤ) : ℝ) + ((1828800 : ℤ) : ℝ) * -(1 / 2) = ((1943100 : ℤ) : ℝ) by
    push_cast; norm_num]
  rw [pyInt_neg_sqrt, pyInt_cast]

/-- C8: in the hub-and-spoke radial layout with 6 spokes, spoke `i` is
placed at angle `-90 + i * (360 / n)` degrees around the hub center, so
consecutive spoke angles are evenly spaced at `360 / n` degrees (60°, i.e.
π/3 radians, for n = 6), and every truncated integer spoke center lies at
distance `HUB_RADIUS` from the hub center within ±1 EMU (stated in squared
form: the squared distance lies between `(R-1)²` and `(R+1)²`). -/
theorem radial_spoke_placement_spec :
    (∀ i : ℕ, spokeAngleDeg SPOKES.length (i + 1) - spokeAngleDeg SPOKES.length i = 60) ∧
    (∀ i : ℕ, spokeAngle SPOKES.length (i + 1) - spokeAngle SPOKES.length i =
      Real.pi / 3) ∧
    spokeWithinOne 0 ∧ spokeWithinOne 1 ∧ spokeWithinOne 2 ∧
    spokeWithinOne 3 ∧ spokeWithinOne 4 ∧ spokeWithinOne 5 := by
  have hdeg : ∀ i : ℕ,
      spokeAngleDeg SPOKES.length (i + 1) - spokeAngleDeg SPOKES.length i = 60 := by
    intro i
    simp only [spokeAngleDeg, show SPOKES.length = 6 from rfl]
    push_cast
    ring
  have hrad : ∀ i : ℕ,
      spokeAngle SPOKES.length (i + 1) - spokeAngle SPOKES.length i = Real.pi / 3 := by
    intro i
    unfold spokeAngle
    linear_combination (Real.pi / 180) * hdeg i
  refine ⟨hdeg, hrad, ?_, ?_, ?_, ?_, ?_, ?_⟩
  · unfold spokeWithinOne spokeDistSq
    rw [spokeCenter_0]
    decide
  · unfold spokeWithinOne spokeDistSq
    rw [spokeCenter_1]
    decide
  · unfold spokeWithinOne spokeDistSq
    rw [spokeCenter_2]
    decide
  · unfold spokeWithinOne spokeDistSq
    rw [spokeCenter_3]
    decide
  · unfold spokeWithinOne spokeDistSq
    rw [spokeCenter_4]
    decide
  · unfold spokeWithinOne spokeDistSq
    rw [spokeCenter_5]
    decide
